import Mathlib

/-!
Verification of the Task Manager service core.

The definitions below are a shallow embedding, in Lean, of the Python
source: `app/repositories.py`, `app/services/task_service.py`,
`app/services/user_service.py` and `routers/tasks.py`. The SQLAlchemy
session is modelled as an explicit record of persisted rows (`DB`); each
stateful operation takes the store and returns the new store together
with its result. Python `None` is `Option.none`; a raised `ValueError`
is an `Except.error` carrying the exception message, paired with the
unchanged store (the service raises before any write). A `**kwargs`
partial-update dictionary is modelled by `UpdateData`, whose fields are
`Option (Option _)`: the outer layer is key presence in the dictionary,
the inner layer is the value possibly being Python `None`.

The password hashing pair and the token issuer/verifier live in
`core/security/auth.py`, which is absent from the source tree (only the
re-exporting `core/security/__init__.py` is present); those definitions
are modelled from the specification and say so in their doc comments.
-/

/-- Row of the `users` table, fields as used by `app/repositories.py` and
`app/services/user_service.py` (the declaring module `app/models.py` is
absent from the tree; the field list follows the data-model section of
the specification and every access made by the present code). -/
structure User where
  id : Nat
  username : String
  hashed_password : String
  email : Option String
deriving Repr, DecidableEq

/-- Row of the `tasks` table, fields as used by `app/repositories.py`,
`app/services/task_service.py` and `app/schemas/task_schema.py`. -/
structure TaskRow where
  id : Nat
  title : String
  description : Option String
  completed : Bool
  owner_id : Nat
deriving Repr, DecidableEq

/-- The persisted state: the two tables, plus the autoincrement counters
the database assigns primary keys from. -/
structure DB where
  users : List User
  tasks : List TaskRow
  nextUserId : Nat
  nextTaskId : Nat
deriving Repr, DecidableEq

/-- `model_dump(exclude_unset=True)` of a `TaskUpdate` body: outer
`Option` is key presence, inner `Option` is an explicit JSON null. -/
structure UpdateData where
  title : Option (Option String) := none
  description : Option (Option String) := none
  completed : Option (Option Bool) := none
deriving Repr, DecidableEq

def usernameLengthMsg : String := "Username must be between 3 and 50 characters"

def passwordLengthMsg : String := "Password must be at least 8 characters"

def titleEmptyMsg : String := "Task title cannot be empty"

def titleLengthMsg : String := "Task title must be less than 255 characters"

def descriptionLengthMsg : String := "Task description must be less than 2000 characters"

/-- Modelled from the spec: `get_password_hash` of the absent
`core/security/auth.py` — a one-way digest such that `verify_password`
accepts exactly the original plaintext (§4.1 of the specification). The
tag prefix makes the digest differ from every plaintext and makes the
function injective, which is all the verification below relies on. -/
def get_password_hash (plaintext : String) : String :=
  "hashed:" ++ plaintext

/-- Modelled from the spec: `verify_password` of the absent
`core/security/auth.py` — accepts the original plaintext against its
digest and rejects any other (§4.1 of the specification). -/
def verify_password (plaintext digest : String) : Bool :=
  digest == get_password_hash plaintext

/-- `UserRepository.get_by_id` (`app/repositories.py`). -/
def UserRepository.get_by_id (db : DB) (user_id : Nat) : Option User :=
  db.users.find? (fun u => u.id == user_id)

/-- `UserRepository.get_by_username` (`app/repositories.py`). -/
def UserRepository.get_by_username (db : DB) (username : String) : Option User :=
  db.users.find? (fun u => u.username == username)

/-- `UserRepository.create` (`app/repositories.py`): the insert assigns
the autoincrement primary key. -/
def UserRepository.create (db : DB) (user : User) : DB × User :=
  let inserted : User := { user with id := db.nextUserId }
  ({ db with users := db.users ++ [inserted], nextUserId := db.nextUserId + 1 }, inserted)

/-- `UserRepository.delete` (`app/repositories.py`): looks the user up by
id and deletes that one row, reporting whether a row was deleted. -/
def UserRepository.delete (db : DB) (user_id : Nat) : DB × Bool :=
  match db.users.find? (fun u => u.id == user_id) with
  | some _ => ({ db with users := db.users.eraseP (fun u => u.id == user_id) }, true)
  | none => (db, false)

/-- `TaskRepository.get_by_id` (`app/repositories.py`). -/
def TaskRepository.get_by_id (db : DB) (task_id : Nat) : Option TaskRow :=
  db.tasks.find? (fun t => t.id == task_id)

/-- `TaskRepository.get_by_user` (`app/repositories.py`): the owner
filter with `offset(skip).limit(limit)` pagination. -/
def TaskRepository.get_by_user (db : DB) (user_id skip limit : Nat) : List TaskRow :=
  (((db.tasks.filter (fun t => t.owner_id == user_id)).drop skip).take limit)

/-- `TaskRepository.get_by_user_and_id` (`app/repositories.py`). -/
def TaskRepository.get_by_user_and_id (db : DB) (task_id user_id : Nat) : Option TaskRow :=
  db.tasks.find? (fun t => t.id == task_id && t.owner_id == user_id)

/-- `TaskRepository.get_completed_tasks` (`app/repositories.py`): no
pagination. -/
def TaskRepository.get_completed_tasks (db : DB) (user_id : Nat) : List TaskRow :=
  db.tasks.filter (fun t => t.owner_id == user_id && t.completed)

/-- `TaskRepository.get_pending_tasks` (`app/repositories.py`): no
pagination. -/
def TaskRepository.get_pending_tasks (db : DB) (user_id : Nat) : List TaskRow :=
  db.tasks.filter (fun t => t.owner_id == user_id && !t.completed)

/-- `TaskRepository.create` (`app/repositories.py`). -/
def TaskRepository.create (db : DB) (task : TaskRow) : DB × TaskRow :=
  let inserted : TaskRow := { task with id := db.nextTaskId }
  ({ db with tasks := db.tasks ++ [inserted], nextTaskId := db.nextTaskId + 1 }, inserted)

/-- The `setattr` loop of `TaskRepository.update`: a key present in the
dictionary is applied only when its value `is not None`. -/
def applyUpdateData (t : TaskRow) (kw : UpdateData) : TaskRow :=
  { t with
    title := match kw.title with
      | some (some v) => v
      | _ => t.title
    description := match kw.description with
      | some (some v) => some v
      | _ => t.description
    completed := match kw.completed with
      | some (some v) => v
      | _ => t.completed }

/-- `TaskRepository.update` (`app/repositories.py`): re-queries by id
only (no owner filter), applies the non-`None` values of the keyword
dictionary, and returns the refreshed row. -/
def TaskRepository.update (db : DB) (task_id : Nat) (kw : UpdateData) : DB × Option TaskRow :=
  match db.tasks.find? (fun t => t.id == task_id) with
  | none => (db, none)
  | some t =>
    let updated := applyUpdateData t kw
    ({ db with tasks := db.tasks.map (fun x => if x.id == task_id then updated else x) },
     some updated)

/-- `TaskRepository.delete` (`app/repositories.py`): deletes by id only. -/
def TaskRepository.delete (db : DB) (task_id : Nat) : DB × Bool :=
  match db.tasks.find? (fun t => t.id == task_id) with
  | some _ => ({ db with tasks := db.tasks.eraseP (fun t => t.id == task_id) }, true)
  | none => (db, false)

/-- `TaskRepository.count_by_user` (`app/repositories.py`). -/
def TaskRepository.count_by_user (db : DB) (user_id : Nat) : Nat :=
  (db.tasks.filter (fun t => t.owner_id == user_id)).length

/-- `TaskRepository.count_completed_by_user` (`app/repositories.py`). -/
def TaskRepository.count_completed_by_user (db : DB) (user_id : Nat) : Nat :=
  (db.tasks.filter (fun t => t.owner_id == user_id && t.completed)).length

/-- The error cases `UserService.register_user` raises `ValueError` for. -/
inductive RegisterError where
  | duplicateUsername (username : String)
  | validationError (msg : String)
deriving Repr, DecidableEq

/-- `UserService.register_user` (`app/services/user_service.py`): the
duplicate check runs first, then the two length validations, then the
password is hashed and the row inserted. A raised `ValueError` leaves
the session untouched, hence the unchanged store in the error cases. -/
def UserService.register_user (db : DB) (username password : String)
    (email : Option String) : DB × Except RegisterError User :=
  match UserRepository.get_by_username db username with
  | some _ => (db, Except.error (RegisterError.duplicateUsername username))
  | none =>
    if username.length < 3 || 50 < username.length then
      (db, Except.error (RegisterError.validationError usernameLengthMsg))
    else if password.length < 8 then
      (db, Except.error (RegisterError.validationError passwordLengthMsg))
    else
      let (db2, user) := UserRepository.create db
        { id := 0, username := username,
          hashed_password := get_password_hash password, email := email }
      (db2, Except.ok user)

/-- `UserService.authenticate_user` (`app/services/user_service.py`):
`None` both when the username is unknown and when the password check
fails. -/
def UserService.authenticate_user (db : DB) (username password : String) : Option User :=
  match UserRepository.get_by_username db username with
  | none => none
  | some user =>
    if verify_password password user.hashed_password then some user else none

/-- `UserService.delete_user` (`app/services/user_service.py`). -/
def UserService.delete_user (db : DB) (user_id : Nat) : DB × Bool :=
  UserRepository.delete db user_id

/-- `TaskService.get_task` (`app/services/task_service.py`). -/
def TaskService.get_task (db : DB) (task_id user_id : Nat) : Option TaskRow :=
  TaskRepository.get_by_user_and_id db task_id user_id

/-- `TaskService.get_user_tasks` (`app/services/task_service.py`): only
the unfiltered branch paginates. -/
def TaskService.get_user_tasks (db : DB) (user_id skip limit : Nat)
    (filter_completed : Option Bool) : List TaskRow :=
  match filter_completed with
  | none => TaskRepository.get_by_user db user_id skip limit
  | some true => TaskRepository.get_completed_tasks db user_id
  | some false => TaskRepository.get_pending_tasks db user_id

/-- Python `str.strip()` as used by the task service: removes leading
and trailing whitespace characters. -/
def pyStrip (s : String) : String :=
  String.mk (((s.data.dropWhile Char.isWhitespace).reverse.dropWhile Char.isWhitespace).reverse)

/-- The description half of the validation in `TaskService.update_task`:
Python validates only when the key is present and its value truthy
(neither `None` nor the empty string), and strips it in that case. -/
def TaskService.updateValidatedDescription (db : DB) (task_id : Nat) (kw : UpdateData) :
    DB × Except String (Option TaskRow) :=
  match kw.description with
  | some (some s) =>
    if s ≠ "" then
      if 2000 < s.length then
        (db, Except.error descriptionLengthMsg)
      else
        let (db2, r) := TaskRepository.update db task_id { kw with description := some (some (pyStrip s)) }
        (db2, Except.ok r)
    else
      let (db2, r) := TaskRepository.update db task_id kw
      (db2, Except.ok r)
  | _ =>
    let (db2, r) := TaskRepository.update db task_id kw
    (db2, Except.ok r)

/-- `TaskService.update_task` (`app/services/task_service.py`): ownership
check first; a present title is rejected when falsy or all-whitespace or
over 255 characters, and stripped otherwise; then the description rule
of `TaskService.updateValidatedDescription`; finally
`TaskRepository.update` applies the dictionary. -/
def TaskService.update_task (db : DB) (task_id user_id : Nat) (kw : UpdateData) :
    DB × Except String (Option TaskRow) :=
  match TaskRepository.get_by_user_and_id db task_id user_id with
  | none => (db, Except.ok none)
  | some _ =>
    match kw.title with
    | some none => (db, Except.error titleEmptyMsg)
    | some (some s) =>
      if pyStrip s = "" then (db, Except.error titleEmptyMsg)
      else if 255 < s.length then (db, Except.error titleLengthMsg)
      else TaskService.updateValidatedDescription db task_id { kw with title := some (some (pyStrip s)) }
    | none => TaskService.updateValidatedDescription db task_id kw

/-- `TaskService.complete_task` (`app/services/task_service.py`). -/
def TaskService.complete_task (db : DB) (task_id user_id : Nat) : DB × Option TaskRow :=
  match TaskRepository.get_by_user_and_id db task_id user_id with
  | none => (db, none)
  | some _ => TaskRepository.update db task_id { completed := some (some true) }

/-- `TaskService.incomplete_task` (`app/services/task_service.py`). -/
def TaskService.incomplete_task (db : DB) (task_id user_id : Nat) : DB × Option TaskRow :=
  match TaskRepository.get_by_user_and_id db task_id user_id with
  | none => (db, none)
  | some _ => TaskRepository.update db task_id { completed := some (some false) }

/-- `TaskService.delete_task` (`app/services/task_service.py`). -/
def TaskService.delete_task (db : DB) (task_id user_id : Nat) : DB × Bool :=
  match TaskRepository.get_by_user_and_id db task_id user_id with
  | none => (db, false)
  | some _ => TaskRepository.delete db task_id

/-- The dictionary `TaskService.get_task_statistics` returns. The
completion percentage, a Python float, is modelled as an exact rational. -/
structure TaskStatistics where
  total_tasks : Nat
  completed_tasks : Nat
  pending_tasks : Nat
  completion_percentage : Rat
deriving Repr, DecidableEq

/-- `TaskService.get_task_statistics` (`app/services/task_service.py`). -/
def TaskService.get_task_statistics (db : DB) (user_id : Nat) : TaskStatistics :=
  let total := TaskRepository.count_by_user db user_id
  let completed := TaskRepository.count_completed_by_user db user_id
  { total_tasks := total
    completed_tasks := completed
    pending_tasks := total - completed
    completion_percentage :=
      if 0 < total then (completed : Rat) / (total : Rat) * 100 else 0 }

/-- The response body of the list endpoint `read_tasks`
(`routers/tasks.py`). -/
structure TaskListResponse where
  items : List TaskRow
  total : Nat
  skip : Nat
  limit : Nat
deriving Repr, DecidableEq

/-- `read_tasks` (`routers/tasks.py`): items from
`TaskService.get_user_tasks`, total always from the unfiltered
`total_tasks` of `TaskService.get_task_statistics`. -/
def read_tasks (db : DB) (user_id skip limit : Nat) (completed : Option Bool) :
    TaskListResponse :=
  { items := TaskService.get_user_tasks db user_id skip limit completed
    total := (TaskService.get_task_statistics db user_id).total_tasks
    skip := skip
    limit := limit }

/-- Modelled from the spec: the self-contained signed token of §4.2
(the issuing/verifying `core/security/auth.py` is absent from the
source tree): a subject, an absolute expiry, and a signature over both. -/
structure Token where
  subject : String
  expiry : Nat
  signature : String
deriving Repr, DecidableEq

/-- Modelled from the spec: the signature over a token's payload under
the server's signing key, injective in all three arguments as a MAC is
collision-free in this model. -/
def signPayload (key subject : String) (expiry : Nat) : String :=
  key ++ "|" ++ subject ++ "|" ++ toString expiry

/-- Modelled from the spec: `issue(subject, ttl)` of §4.2 — expiry is
`now + ttl`, signed with the server's key (`create_access_token` of the
absent `core/security/auth.py`). -/
def create_access_token (key subject : String) (now ttl : Nat) : Token :=
  { subject := subject, expiry := now + ttl,
    signature := signPayload key subject (now + ttl) }

/-- The failure cases of token verification named in §4.2. -/
inductive TokenError where
  | invalidToken
  | expiredToken
deriving Repr, DecidableEq

/-- Modelled from the spec: `verify(token)` of §4.2 — `InvalidToken`
when the signature does not match the server key, `ExpiredToken` when
now is past the expiry, otherwise the subject (`verify_token` of the
absent `core/security/auth.py`). -/
def verify_token (key : String) (now : Nat) (tok : Token) : Except TokenError String :=
  if tok.signature ≠ signPayload key tok.subject tok.expiry then
    Except.error TokenError.invalidToken
  else if tok.expiry < now then
    Except.error TokenError.expiredToken
  else
    Except.ok tok.subject

/-! ## Helper lemmas -/

/-- `find?` returns the element when it is the unique satisfier among the
members of the list. -/
theorem find_some_of_unique {α : Type} {l : List α} {p : α → Bool} {t : α}
    (hmem : t ∈ l) (hp : p t = true) (huniq : ∀ x ∈ l, p x = true → x = t) :
    l.find? p = some t := by
  induction l with
  | nil => cases hmem
  | cons a as ih =>
    rw [List.find?_cons]
    cases hpa : p a with
    | true =>
      have : a = t := huniq a (List.mem_cons_self a as) hpa
      rw [this]
    | false =>
      have hmem2 : t ∈ as := by
        rcases List.mem_cons.mp hmem with h | h
        · rw [h] at hp; rw [hp] at hpa; cases hpa
        · exact h
      exact ih hmem2 (fun x hx hpx => huniq x (List.mem_cons_of_mem a hx) hpx)

/-- With distinct primary keys, a row is determined by its id. -/
theorem task_id_unique {db : DB} {t : TaskRow}
    (hids : (db.tasks.map TaskRow.id).Nodup) (hmem : t ∈ db.tasks) :
    ∀ x ∈ db.tasks, x.id = t.id → x = t :=
  fun _ hx hid => List.inj_on_of_nodup_map hids hx hmem hid

/-- The owner-scoped lookup misses every task whose owner differs from
the caller. -/
theorem get_by_user_and_id_of_ne_owner {db : DB} {t : TaskRow} {b : Nat}
    (hids : (db.tasks.map TaskRow.id).Nodup) (hmem : t ∈ db.tasks) (hb : t.owner_id ≠ b) :
    TaskRepository.get_by_user_and_id db t.id b = none := by
  unfold TaskRepository.get_by_user_and_id
  rw [List.find?_eq_none]
  intro x hx hpx
  rw [Bool.and_eq_true] at hpx
  have hid : x.id = t.id := by simpa using hpx.1
  have hxeq : x = t := task_id_unique hids hmem x hx hid
  rw [hxeq] at hpx
  have : t.owner_id = b := by simpa using hpx.2
  exact hb this

/-! ## Claims -/

/-- Claim C1: for every task `t` owned by user `A` and every user `B ≠ A`,
`get`, `update`, `complete`, `incomplete` and `delete` invoked with `B` on
`t.id` return the not-found outcome (`none` / `false`) and leave the
store — in particular `t` — unchanged. -/
theorem ownership_scoping_non_owner (db : DB) (t : TaskRow) (b : Nat)
    (hids : (db.tasks.map TaskRow.id).Nodup)
    (hmem : t ∈ db.tasks) (hb : t.owner_id ≠ b) :
    TaskService.get_task db t.id b = none ∧
    (∀ kw : UpdateData, TaskService.update_task db t.id b kw = (db, Except.ok none)) ∧
    TaskService.complete_task db t.id b = (db, none) ∧
    TaskService.incomplete_task db t.id b = (db, none) ∧
    TaskService.delete_task db t.id b = (db, false) := by
  have h0 := get_by_user_and_id_of_ne_owner hids hmem hb
  refine ⟨?_, ?_, ?_, ?_, ?_⟩
  · simpa [TaskService.get_task] using h0
  · intro kw
    simp [TaskService.update_task, h0]
  · simp [TaskService.complete_task, h0]
  · simp [TaskService.incomplete_task, h0]
  · simp [TaskService.delete_task, h0]

def exTaskA : TaskRow :=
  { id := 1, title := "Buy milk", description := none, completed := false, owner_id := 1 }

def exDB1 : DB := { users := [], tasks := [exTaskA], nextUserId := 1, nextTaskId := 2 }

/-- Concrete instance of Claim C1: user 2 cannot see or delete user 1's
task. -/
theorem ownership_scoping_non_owner_witness :
    TaskService.get_task exDB1 exTaskA.id 2 = none ∧
    TaskService.delete_task exDB1 exTaskA.id 2 = (exDB1, false) :=
  ⟨(ownership_scoping_non_owner exDB1 exTaskA 2 (by decide) (by decide) (by decide)).1,
   (ownership_scoping_non_owner exDB1 exTaskA 2 (by decide) (by decide) (by decide)).2.2.2.2⟩

/-- `find?` over an appended list skips a prefix with no match. -/
theorem find_append_none {α : Type} {l1 l2 : List α} {p : α → Bool}
    (h : l1.find? p = none) : (l1 ++ l2).find? p = l2.find? p := by
  induction l1 with
  | nil => rfl
  | cons a as ih =>
    rw [List.cons_append, List.find?_cons]
    rw [List.find?_cons] at h
    cases hpa : p a with
    | true => rw [hpa] at h; cases h
    | false =>
      rw [hpa] at h
      exact ih h

/-- Claim C4: a nonexistent username and an existing username with a
wrong password produce the identical observable failure outcome of
`authenticate_user` — `none` in both cases, with no distinguishing
signal in the returned value. -/
theorem authenticate_failure_indistinguishable (db : DB) (u1 p1 u2 p2 : String)
    (h1 : UserRepository.get_by_username db u1 = none)
    (h2some : (UserRepository.get_by_username db u2).isSome = true)
    (h2 : (UserRepository.get_by_username db u2).all
            (fun user => !verify_password p2 user.hashed_password) = true) :
    UserService.authenticate_user db u1 p1 = none ∧
    UserService.authenticate_user db u2 p2 = none ∧
    UserService.authenticate_user db u1 p1 = UserService.authenticate_user db u2 p2 := by
  obtain ⟨user, huser⟩ := Option.isSome_iff_exists.mp h2some
  rw [huser] at h2
  have hv : verify_password p2 user.hashed_password = false := by
    simpa using h2
  have hfail2 : UserService.authenticate_user db u2 p2 = none := by
    simp [UserService.authenticate_user, huser, hv]
  have hfail1 : UserService.authenticate_user db u1 p1 = none := by
    simp [UserService.authenticate_user, h1]
  exact ⟨hfail1, hfail2, by rw [hfail1, hfail2]⟩

def aliceName : String := "alice"

def bobName : String := "bob"

def alicePassword : String := "password123"

def wrongPassword : String := "wrongpass"

def aliceUser : User :=
  { id := 1, username := aliceName,
    hashed_password := get_password_hash alicePassword, email := none }

def exDB4 : DB := { users := [aliceUser], tasks := [], nextUserId := 2, nextTaskId := 1 }

/-- Concrete instance of Claim C4: unknown `bob` and known `alice` with
the wrong password both authenticate to `none`. -/
theorem authenticate_failure_indistinguishable_witness :
    UserService.authenticate_user exDB4 bobName alicePassword = none ∧
    UserService.authenticate_user exDB4 aliceName wrongPassword = none :=
  ⟨(authenticate_failure_indistinguishable exDB4 bobName alicePassword aliceName wrongPassword
      (by decide) (by decide) (by decide)).1,
   (authenticate_failure_indistinguishable exDB4 bobName alicePassword aliceName wrongPassword
      (by decide) (by decide) (by decide)).2.1⟩

/-- Claim C5: for a valid, unregistered username and a valid password,
`register_user` succeeds and `authenticate_user` with the same
credentials against the resulting directory returns a user whose
username matches. -/
theorem register_authenticate_roundtrip (db : DB) (username password : String)
    (email : Option String)
    (h3 : 3 ≤ username.length) (h50 : username.length ≤ 50)
    (h8 : 8 ≤ password.length)
    (hfresh : UserRepository.get_by_username db username = none) :
    ∃ db2 user,
      UserService.register_user db username password email = (db2, Except.ok user) ∧
      ∃ auth, UserService.authenticate_user db2 username password = some auth ∧
        auth.username = username := by
  have hb1 : ¬ username.length < 3 := Nat.not_lt.mpr h3
  have hb2 : ¬ 50 < username.length := Nat.not_lt.mpr h50
  have hb3 : ¬ password.length < 8 := Nat.not_lt.mpr h8
  have hreg : UserService.register_user db username password email =
      ({ db with
          users := db.users ++
            [{ id := db.nextUserId, username := username,
               hashed_password := get_password_hash password, email := email }],
          nextUserId := db.nextUserId + 1 },
       Except.ok
          { id := db.nextUserId, username := username,
            hashed_password := get_password_hash password, email := email }) := by
    simp [UserService.register_user, hfresh, hb1, hb2, hb3, UserRepository.create]
  refine ⟨_, _, hreg, ?_⟩
  have hfind : UserRepository.get_by_username
      { db with
        users := db.users ++
          [{ id := db.nextUserId, username := username,
             hashed_password := get_password_hash password, email := email }],
        nextUserId := db.nextUserId + 1 } username =
      some { id := db.nextUserId, username := username,
             hashed_password := get_password_hash password, email := email } := by
    unfold UserRepository.get_by_username at hfresh ⊢
    rw [find_append_none hfresh]
    simp [List.find?_cons]
  refine ⟨{ id := db.nextUserId, username := username,
            hashed_password := get_password_hash password, email := email }, ?_, rfl⟩
  simp [UserService.authenticate_user, hfind, verify_password]

def emptyDB : DB := { users := [], tasks := [], nextUserId := 1, nextTaskId := 1 }

/-- Concrete instance of Claim C5: registering `alice` in an empty
directory and logging in with the same credentials succeeds. -/
theorem register_authenticate_roundtrip_witness :
    ∃ db2 user,
      UserService.register_user emptyDB aliceName alicePassword none =
        (db2, Except.ok user) ∧
      ∃ auth, UserService.authenticate_user db2 aliceName alicePassword = some auth ∧
        auth.username = aliceName :=
  register_authenticate_roundtrip emptyDB aliceName alicePassword none
    (by decide) (by decide) (by decide) (by decide)

/-- Claim C6: `register_user` fails with the duplicate-username error
when the username is taken, fails with a validation error on a bad
username or password length (the username not being taken, cf. the
precedence claim), on success persists exactly one new user storing the
hash of the password and never the plaintext, and leaves the directory
unchanged on any failure. -/
theorem register_user_contract (db : DB) (username password : String)
    (email : Option String) :
    ((UserRepository.get_by_username db username).isSome = true →
      UserService.register_user db username password email =
        (db, Except.error (RegisterError.duplicateUsername username))) ∧
    (UserRepository.get_by_username db username = none →
     (username.length < 3 ∨ 50 < username.length) →
      UserService.register_user db username password email =
        (db, Except.error (RegisterError.validationError usernameLengthMsg))) ∧
    (UserRepository.get_by_username db username = none →
     3 ≤ username.length → username.length ≤ 50 → password.length < 8 →
      UserService.register_user db username password email =
        (db, Except.error (RegisterError.validationError passwordLengthMsg))) ∧
    (UserRepository.get_by_username db username = none →
     3 ≤ username.length → username.length ≤ 50 → 8 ≤ password.length →
      ∃ user,
        UserService.register_user db username password email =
          ({ db with users := db.users ++ [user], nextUserId := db.nextUserId + 1 },
           Except.ok user) ∧
        user.username = username ∧
        user.hashed_password = get_password_hash password ∧
        user.hashed_password ≠ password) ∧
    (∀ e, (UserService.register_user db username password email).2 = Except.error e →
      (UserService.register_user db username password email).1 = db) := by
  refine ⟨?_, ?_, ?_, ?_, ?_⟩
  · intro hdup
    obtain ⟨u, hu⟩ := Option.isSome_iff_exists.mp hdup
    simp [UserService.register_user, hu]
  · intro hfresh hbad
    have : (decide (username.length < 3) || decide (50 < username.length)) = true := by
      rcases hbad with h | h
      · simp [h]
      · simp [h]
    simp [UserService.register_user, hfresh, this]
  · intro hfresh h3 h50 h8
    simp [UserService.register_user, hfresh, Nat.not_lt.mpr h3, Nat.not_lt.mpr h50, h8]
  · intro hfresh h3 h50 h8
    refine ⟨{ id := db.nextUserId, username := username,
              hashed_password := get_password_hash password, email := email },
            ?_, rfl, rfl, ?_⟩
    · simp [UserService.register_user, hfresh, Nat.not_lt.mpr h3, Nat.not_lt.mpr h50,
        Nat.not_lt.mpr h8, UserRepository.create]
    · intro hplain
      have hlen := congrArg String.length hplain
      rw [get_password_hash, String.length_append] at hlen
      simp at hlen
      exact absurd hlen (by decide)
  · intro e
    unfold UserService.register_user
    cases hfind : UserRepository.get_by_username db username with
    | some u => simp
    | none =>
      by_cases hc1 : username.length < 3
      · simp [hc1]
      · by_cases hc2 : 50 < username.length
        · simp [hc1, hc2]
        · by_cases hc3 : password.length < 8
          · simp [hc1, hc2, hc3]
          · simp [hc1, hc2, hc3, UserRepository.create]

def shortName : String := "al"

def shortPassword : String := "pw"

def shortUser : User :=
  { id := 1, username := shortName,
    hashed_password := get_password_hash shortPassword, email := none }

def exDB6 : DB := { users := [shortUser], tasks := [], nextUserId := 2, nextTaskId := 1 }

/-- Concrete instance of Claim C6: registering a fresh valid pair in the
empty directory persists exactly one new, hashed user. -/
theorem register_user_contract_witness :
    ∃ user,
      UserService.register_user emptyDB aliceName alicePassword none =
        ({ emptyDB with users := emptyDB.users ++ [user],
                        nextUserId := emptyDB.nextUserId + 1 },
         Except.ok user) ∧
      user.username = aliceName ∧
      user.hashed_password = get_password_hash alicePassword ∧
      user.hashed_password ≠ alicePassword :=
  (register_user_contract emptyDB aliceName alicePassword none).2.2.2.1
    (by decide) (by decide) (by decide) (by decide)

/-- Claim C9: the duplicate check precedes the length validations, so a
taken username always reports the duplicate error — regardless of the
username or password lengths — and a validation error is only reachable
for usernames not in the directory. -/
theorem register_duplicate_precedence (db : DB) (username password : String)
    (email : Option String) :
    ((UserRepository.get_by_username db username).isSome = true →
      UserService.register_user db username password email =
        (db, Except.error (RegisterError.duplicateUsername username))) ∧
    (∀ msg, (UserService.register_user db username password email).2 =
        Except.error (RegisterError.validationError msg) →
      UserRepository.get_by_username db username = none) := by
  constructor
  · intro hdup
    obtain ⟨u, hu⟩ := Option.isSome_iff_exists.mp hdup
    simp [UserService.register_user, hu]
  · intro msg hval
    cases hfind : UserRepository.get_by_username db username with
    | none => rfl
    | some u =>
      rw [UserService.register_user] at hval
      simp [hfind] at hval

/-- Concrete instance of Claim C9: `al` is already registered with an
invalid 2-character username and 2-character password; re-registering it
reports the duplicate error, not a validation error. -/
theorem register_duplicate_precedence_witness :
    UserService.register_user exDB6 shortName shortPassword none =
      (exDB6, Except.error (RegisterError.duplicateUsername shortName)) :=
  (register_duplicate_precedence exDB6 shortName shortPassword none).1 (by decide)

/-- Among the members of a list, strengthening the filter can only
shrink the count. -/
theorem length_filter_and_le {α : Type} (l : List α) (p q : α → Bool) :
    (l.filter (fun a => p a && q a)).length ≤ (l.filter p).length := by
  induction l with
  | nil => simp
  | cons a as ih =>
    simp only [List.filter_cons]
    cases hp : p a <;> cases hq : q a <;> simp [hp, hq] <;> omega

/-- Claim C8: the statistics satisfy `completed + pending = total`, the
completion percentage is `completed / total * 100` when `total > 0`, and
it is `0` when `total = 0` (no division by zero). -/
theorem get_task_statistics_correct (db : DB) (uid : Nat) :
    (TaskService.get_task_statistics db uid).completed_tasks +
        (TaskService.get_task_statistics db uid).pending_tasks =
      (TaskService.get_task_statistics db uid).total_tasks ∧
    (0 < (TaskService.get_task_statistics db uid).total_tasks →
      (TaskService.get_task_statistics db uid).completion_percentage =
        ((TaskService.get_task_statistics db uid).completed_tasks : Rat) /
          ((TaskService.get_task_statistics db uid).total_tasks : Rat) * 100) ∧
    ((TaskService.get_task_statistics db uid).total_tasks = 0 →
      (TaskService.get_task_statistics db uid).completion_percentage = 0) := by
  have hle : TaskRepository.count_completed_by_user db uid ≤
      TaskRepository.count_by_user db uid :=
    length_filter_and_le db.tasks (fun t => t.owner_id == uid) (fun t => t.completed)
  refine ⟨?_, ?_, ?_⟩
  · show TaskRepository.count_completed_by_user db uid +
        (TaskRepository.count_by_user db uid - TaskRepository.count_completed_by_user db uid) =
      TaskRepository.count_by_user db uid
    exact Nat.add_sub_cancel' hle
  · intro hpos
    simp only [TaskService.get_task_statistics] at hpos ⊢
    rw [if_pos hpos]
  · intro hzero
    simp only [TaskService.get_task_statistics] at hzero ⊢
    rw [if_neg]
    omega

def exTaskDone : TaskRow :=
  { id := 2, title := "Write report", description := none, completed := true, owner_id := 1 }

def exDB8 : DB :=
  { users := [aliceUser], tasks := [exTaskA, exTaskDone], nextUserId := 2, nextTaskId := 3 }

/-- Concrete instance of Claim C8: one completed task out of two gives
a 50% completion rate. -/
theorem get_task_statistics_correct_witness :
    (TaskService.get_task_statistics exDB8 1).completion_percentage =
      ((TaskService.get_task_statistics exDB8 1).completed_tasks : Rat) /
        ((TaskService.get_task_statistics exDB8 1).total_tasks : Rat) * 100 :=
  (get_task_statistics_correct exDB8 1).2.1 (by decide)

/-- Claim C10: deleting a user removes only that user record and reports
whether one was removed; every task row — including the deleted user's
orphaned tasks — is left untouched. -/
theorem delete_user_no_cascade (db : DB) (uid : Nat) :
    (UserService.delete_user db uid).1.tasks = db.tasks ∧
    ((UserService.delete_user db uid).2 = true ↔ ∃ u ∈ db.users, u.id = uid) ∧
    (∀ u ∈ db.users, u.id ≠ uid → u ∈ (UserService.delete_user db uid).1.users) := by
  unfold UserService.delete_user UserRepository.delete
  cases hfind : db.users.find? (fun u => u.id == uid) with
  | some u =>
    refine ⟨rfl, ?_, ?_⟩
    · exact ⟨fun _ => ⟨u, List.mem_of_find?_eq_some hfind,
               by simpa using List.find?_some hfind⟩, fun _ => rfl⟩
    · intro v hv hne
      exact (List.mem_eraseP_of_neg (by simpa using hne)).mpr hv
  | none =>
    refine ⟨rfl, ?_, ?_⟩
    · constructor
      · intro h
        cases h
      · rintro ⟨u, hu, hid⟩
        have := List.find?_eq_none.mp hfind u hu
        simp [hid] at this
    · intro v hv hne
      exact hv

def bobUser : User :=
  { id := 2, username := bobName,
    hashed_password := get_password_hash alicePassword, email := none }

def exDB10 : DB :=
  { users := [aliceUser, bobUser], tasks := [exTaskA], nextUserId := 3, nextTaskId := 2 }

/-- Concrete instance of Claim C10: deleting `alice` keeps her task row
and keeps `bob`. -/
theorem delete_user_no_cascade_witness :
    (UserService.delete_user exDB10 1).1.tasks = exDB10.tasks ∧
    bobUser ∈ (UserService.delete_user exDB10 1).1.users :=
  ⟨(delete_user_no_cascade exDB10 1).1,
   (delete_user_no_cascade exDB10 1).2.2 bobUser (by decide) (by decide)⟩

/-- Claim C7: token verification fails with `InvalidToken` when the
signature does not verify against the server key, fails with
`ExpiredToken` when the verification time is past the expiry — in
particular any token issued with ttl 0 is expired at every later
instant — and returns the subject exactly for a correctly signed,
unexpired token. -/
theorem verify_token_contract (key subject : String) (tok : Token) (tIssue tVerify : Nat) :
    (tok.signature ≠ signPayload key tok.subject tok.expiry →
      verify_token key tVerify tok = Except.error TokenError.invalidToken) ∧
    (tok.signature = signPayload key tok.subject tok.expiry → tok.expiry < tVerify →
      verify_token key tVerify tok = Except.error TokenError.expiredToken) ∧
    (tok.signature = signPayload key tok.subject tok.expiry → tVerify ≤ tok.expiry →
      verify_token key tVerify tok = Except.ok tok.subject) ∧
    (tIssue < tVerify →
      verify_token key tVerify (create_access_token key subject tIssue 0) =
        Except.error TokenError.expiredToken) := by
  refine ⟨?_, ?_, ?_, ?_⟩
  · intro h
    simp [verify_token, h]
  · intro hs hexp
    simp [verify_token, hs, hexp]
  · intro hs hle
    simp [verify_token, hs, Nat.not_lt.mpr hle]
  · intro hlt
    simp [verify_token, create_access_token, hlt]

def serverKey : String := "secret"

/-- Concrete instance of Claim C7: a ttl-0 token issued at time 3 is
expired when verified at time 5. -/
theorem verify_token_contract_witness :
    verify_token serverKey 5 (create_access_token serverKey aliceName 3 0) =
      Except.error TokenError.expiredToken :=
  (verify_token_contract serverKey aliceName
    (create_access_token serverKey aliceName 3 0) 3 5).2.2.2 (by decide)

def exTaskF1 : TaskRow :=
  { id := 1, title := "T1", description := none, completed := true, owner_id := 1 }

def exTaskF2 : TaskRow :=
  { id := 2, title := "T2", description := none, completed := false, owner_id := 1 }

def exTaskF3 : TaskRow :=
  { id := 3, title := "T3", description := none, completed := true, owner_id := 1 }

def exDB3 : DB :=
  { users := [aliceUser], tasks := [exTaskF1, exTaskF2, exTaskF3],
    nextUserId := 2, nextTaskId := 4 }

/-- Counterexample to Claim C3 as stated: user 1 owns three tasks, two
of them completed. Listing with the completed filter, skip 0 and
limit 1 returns two items — pagination is ignored when the filter is
present — and reports total 3, the unfiltered owned count, not the
count 2 of matching tasks. -/
theorem read_tasks_filter_counterexample :
    (read_tasks exDB3 1 0 1 (some true)).items.length = 2 ∧
    (read_tasks exDB3 1 0 1 (some true)).total = 3 ∧
    ¬ ((read_tasks exDB3 1 0 1 (some true)).items.length ≤ 1 ∧
       (read_tasks exDB3 1 0 1 (some true)).total =
         (exDB3.tasks.filter (fun t => t.owner_id == 1 && t.completed)).length) := by
  decide

/-- Claim C3 (amended): `list` returns the caller's tasks; without the
completed filter the owned tasks are paginated by skip/limit; with the
filter present all matching owned tasks are returned and skip/limit are
ignored; and the reported total is always the count of all owned tasks
before any completed filter. -/
theorem read_tasks_semantics (db : DB) (uid skip limit : Nat) (c : Option Bool) :
    (read_tasks db uid skip limit none).items =
      ((db.tasks.filter (fun t => t.owner_id == uid)).drop skip).take limit ∧
    (read_tasks db uid skip limit (some true)).items =
      db.tasks.filter (fun t => t.owner_id == uid && t.completed) ∧
    (read_tasks db uid skip limit (some false)).items =
      db.tasks.filter (fun t => t.owner_id == uid && !t.completed) ∧
    (read_tasks db uid skip limit c).total =
      (db.tasks.filter (fun t => t.owner_id == uid)).length :=
  ⟨rfl, rfl, rfl, rfl⟩

def noteText : String := "note"

def exTaskD : TaskRow :=
  { id := 1, title := "Buy milk", description := some noteText,
    completed := false, owner_id := 1 }

def exDB2 : DB := { users := [aliceUser], tasks := [exTaskD], nextUserId := 2, nextTaskId := 2 }

/-- Counterexample to Claim C2 as stated: an update of an owned task
whose body explicitly sets `description` to null succeeds but leaves the
stored description unchanged — the `value is not None` guard of the
repository treats an explicit null like an absent field, so the
description is not cleared. -/
theorem update_task_null_description_counterexample :
    TaskService.update_task exDB2 1 1
        { title := none, description := some none, completed := none } =
      (exDB2, Except.ok (some exTaskD)) ∧
    exTaskD.description = some noteText ∧
    some noteText ≠ (none : Option String) :=
  ⟨rfl, rfl, by decide⟩

/-- The effect of a partial update on a task as the corrected claim
states it: a provided non-null title or description is stripped and set,
a provided non-null completed flag is set, and a field that is absent —
or explicitly null — keeps its prior value. -/
def specApplyUpdate (t : TaskRow) (kw : UpdateData) : TaskRow :=
  { t with
    title := match kw.title with
      | some (some s) => pyStrip s
      | _ => t.title
    description := match kw.description with
      | some (some s) => some (pyStrip s)
      | _ => t.description
    completed := match kw.completed with
      | some (some b) => b
      | _ => t.completed }

/-- The stripping the service applies to a present, truthy description
before handing the dictionary to the repository. -/
def stripDescription (kw : UpdateData) : UpdateData :=
  match kw.description with
  | some (some s) => { kw with description := some (some (pyStrip s)) }
  | _ => kw

/-- Reduction of the description-validation stage when the provided
description is within bounds. -/
theorem updateValidatedDescription_ok {db : DB} {t : TaskRow} (kw2 : UpdateData)
    (hrepo : ∀ kw3 : UpdateData, TaskRepository.update db t.id kw3 =
      ({ db with tasks := db.tasks.map (fun x => if x.id == t.id then applyUpdateData t kw3 else x) },
       some (applyUpdateData t kw3)))
    (hdesc : ∀ s, kw2.description = some (some s) → s.length ≤ 2000) :
    TaskService.updateValidatedDescription db t.id kw2 =
      ({ db with tasks := db.tasks.map (fun x =>
           if x.id == t.id then applyUpdateData t (stripDescription kw2) else x) },
       Except.ok (some (applyUpdateData t (stripDescription kw2)))) := by
  obtain ⟨a, b, c⟩ := kw2
  unfold TaskService.updateValidatedDescription stripDescription
  dsimp only at hdesc ⊢
  cases b with
  | none =>
    rw [hrepo ⟨a, none, c⟩]
  | some o =>
    cases o with
    | none =>
      rw [hrepo ⟨a, some none, c⟩]
    | some s =>
      dsimp only
      by_cases hse : s = ""
      · subst hse
        rw [if_neg (not_not_intro rfl)]
        rw [hrepo ⟨a, some (some ""), c⟩]
        rfl
      · rw [if_pos hse]
        rw [if_neg (Nat.not_lt.mpr (hdesc s rfl))]
        rw [hrepo ⟨a, some (some (pyStrip s)), c⟩]

/-- With no provided title, the repository-level merge of the stripped
dictionary agrees with the claimed update effect. -/
theorem apply_strip_eq_spec_none (t : TaskRow) (kw : UpdateData) (ht : kw.title = none) :
    applyUpdateData t (stripDescription kw) = specApplyUpdate t kw := by
  obtain ⟨a, b, c⟩ := kw
  dsimp only at ht
  subst ht
  cases b with
  | none => rfl
  | some o =>
    cases o with
    | none => rfl
    | some d => rfl

/-- With a provided non-null title, the repository-level merge of the
stripped dictionary agrees with the claimed update effect. -/
theorem apply_strip_eq_spec_some (t : TaskRow) (kw : UpdateData) (s : String)
    (ht : kw.title = some (some s)) :
    applyUpdateData t (stripDescription { kw with title := some (some (pyStrip s)) }) =
      specApplyUpdate t kw := by
  obtain ⟨a, b, c⟩ := kw
  dsimp only at ht
  subst ht
  cases b with
  | none => rfl
  | some o =>
    cases o with
    | none => rfl
    | some d => rfl

/-- Claim C2 (amended): updating an owned task revalidates any provided
non-null title or description against the create constraints, and on
success sets exactly the provided non-null fields (stripped) while every
absent field keeps its prior value. Explicit null is not uniform across
fields: a description or completed flag explicitly set to null is
treated like an absent field and keeps its prior value — so setting
description to null leaves it unchanged rather than clearing it — while
a title explicitly set to null is rejected with the empty-title
validation error and the update aborts. -/
theorem update_task_merge_semantics (db : DB) (t : TaskRow) (uid : Nat) (kw : UpdateData)
    (hids : (db.tasks.map TaskRow.id).Nodup) (hmem : t ∈ db.tasks)
    (hown : t.owner_id = uid) :
    ((∀ s, kw.title = some (some s) → ¬ pyStrip s = "" ∧ s.length ≤ 255) →
     kw.title ≠ some none →
     (∀ s, kw.description = some (some s) → s.length ≤ 2000) →
      TaskService.update_task db t.id uid kw =
        ({ db with tasks := db.tasks.map (fun x => if x.id == t.id then specApplyUpdate t kw else x) },
         Except.ok (some (specApplyUpdate t kw)))) ∧
    (kw.title = some none →
      TaskService.update_task db t.id uid kw = (db, Except.error titleEmptyMsg)) ∧
    (∀ s, kw.title = some (some s) → pyStrip s = "" →
      TaskService.update_task db t.id uid kw = (db, Except.error titleEmptyMsg)) ∧
    (∀ s, kw.title = some (some s) → ¬ pyStrip s = "" → 255 < s.length →
      TaskService.update_task db t.id uid kw = (db, Except.error titleLengthMsg)) ∧
    (∀ s, kw.description = some (some s) → s ≠ "" → 2000 < s.length →
     (∀ s2, kw.title = some (some s2) → ¬ pyStrip s2 = "" ∧ s2.length ≤ 255) →
     kw.title ≠ some none →
      TaskService.update_task db t.id uid kw = (db, Except.error descriptionLengthMsg)) := by
  have hfind : TaskRepository.get_by_user_and_id db t.id uid = some t := by
    unfold TaskRepository.get_by_user_and_id
    apply find_some_of_unique hmem
    · simp [hown]
    · intro x hx hpx
      rw [Bool.and_eq_true] at hpx
      exact task_id_unique hids hmem x hx (by simpa using hpx.1)
  have hrepo : ∀ kw3 : UpdateData, TaskRepository.update db t.id kw3 =
      ({ db with tasks := db.tasks.map (fun x => if x.id == t.id then applyUpdateData t kw3 else x) },
       some (applyUpdateData t kw3)) := by
    intro kw3
    unfold TaskRepository.update
    have hfind2 : db.tasks.find? (fun x => x.id == t.id) = some t := by
      apply find_some_of_unique hmem
      · simp
      · intro x hx hpx
        exact task_id_unique hids hmem x hx (by simpa using hpx)
    rw [hfind2]
  refine ⟨?_, ?_, ?_, ?_, ?_⟩
  · intro htitle htnn hdesc
    unfold TaskService.update_task
    rw [hfind]
    cases ht : kw.title with
    | none =>
      rw [updateValidatedDescription_ok kw hrepo hdesc,
        apply_strip_eq_spec_none t kw ht]
    | some o =>
      cases o with
      | none => exact absurd ht htnn
      | some s =>
        obtain ⟨hse, hlen⟩ := htitle s ht
        dsimp only
        rw [if_neg hse, if_neg (Nat.not_lt.mpr hlen)]
        rw [updateValidatedDescription_ok { kw with title := some (some (pyStrip s)) }
            hrepo (fun d hd => hdesc d hd),
          apply_strip_eq_spec_some t kw s ht]
  · intro ht
    unfold TaskService.update_task
    rw [hfind, ht]
  · intro s ht hs
    unfold TaskService.update_task
    rw [hfind, ht]
    dsimp only
    rw [if_pos hs]
  · intro s ht hne hlen
    unfold TaskService.update_task
    rw [hfind, ht]
    dsimp only
    rw [if_neg hne, if_pos hlen]
  · intro s hd hse hlen htitle htnn
    unfold TaskService.update_task
    rw [hfind]
    cases ht : kw.title with
    | none =>
      unfold TaskService.updateValidatedDescription
      rw [hd]
      dsimp only
      rw [if_pos hse, if_pos hlen]
    | some o =>
      cases o with
      | none => exact absurd ht htnn
      | some s2 =>
        obtain ⟨hs2, hl2⟩ := htitle s2 ht
        dsimp only
        rw [if_neg hs2, if_neg (Nat.not_lt.mpr hl2)]
        unfold TaskService.updateValidatedDescription
        rw [show ({ kw with title := some (some (pyStrip s2)) } : UpdateData).description =
              kw.description from rfl, hd]
        dsimp only
        rw [if_pos hse, if_pos hlen]

def newTitleRaw : String := "  Clean kitchen  "

/-- Concrete instance of Claim C2 (amended): updating task 1 with a
padded title and an explicitly-null description strips and sets the
title and keeps the prior description. -/
theorem update_task_merge_semantics_witness :
    TaskService.update_task exDB2 exTaskD.id 1
        { title := some (some newTitleRaw), description := some none, completed := none } =
      ({ exDB2 with tasks := exDB2.tasks.map (fun x =>
           if x.id == exTaskD.id then
             specApplyUpdate exTaskD
               { title := some (some newTitleRaw), description := some none,
                 completed := none }
           else x) },
       Except.ok (some (specApplyUpdate exTaskD
         { title := some (some newTitleRaw), description := some none,
           completed := none }))) :=
  (update_task_merge_semantics exDB2 exTaskD 1
      { title := some (some newTitleRaw), description := some none, completed := none }
      (by decide) (by decide) (by decide)).1
    (fun s hs => by
      injection hs with h1
      injection h1 with h2
      subst h2
      exact ⟨by decide, by decide⟩)
    (by decide)
    (fun s hs => by injection hs with h1; cases h1)
